import Mathlib

set_option autoImplicit false

namespace BuildService

/-- Structured document values: the shape of parsed YAML/JSON payloads
(deploy descriptors, service descriptors, inline request config). -/
inductive Val where
  | vstr : String → Val
  | vint : Int → Val
  | vobj : List (String × Val) → Val
  | varr : List Val → Val
  | vnull : Val
deriving Repr, BEq

/-- Exceptions that can be raised by the script or by the libraries it
calls, as distinguished by the script and its custom exception classes. -/
inductive PyErr where
  | missingConfigFile (filename : String)
  | badGitRepo
  | badGitBranch (branch : String)
  | archNotSupported (image : String) (arch : String) (supported : List String)
  | fileNotFound (path : String)
  | attributeError
  | keyError (k : String)
  | typeError (msg : String)
  | indexError
  | yamlError (msg : String)
  | apiError (msg : String)
  | dockerBuildErr (msg : String)
  | dockerPushErr (msg : String)
  | badRequest (msg : String)
deriving Repr, DecidableEq

/-- External calls the script can make, recorded as an ordered trace.
The docker client also offers a tag operation; the script never calls it,
and the constructor is here so that absence can be stated. -/
inductive Call where
  | gitClone (url : String) (dir : String)
  | gitCheckout (branch : String)
  | readFile (path : String)
  | getRegistryData (image : String)
  | dockerBuild (path : String) (tag : String)
  | dockerPush (ref : String)
  | dockerTag (image : String) (ref : String)
  | kubeCreate (ns : String)
  | kubeDelete (name : String) (ns : String)
  | kubePatch (name : String) (ns : String)
deriving Repr, DecidableEq

/-- Lifecycle events of the temporary working directory created by
tempfile.TemporaryDirectory. -/
inductive TreeEvent where
  | created
  | removed
deriving Repr, DecidableEq

/-- A structured response actually returned by a Flask handler:
either a success payload with an image field, or an error payload
with an err field plus a status code. -/
inductive Resp where
  | ok (image : String)
  | err (msg : String) (code : Nat)
deriving Repr, DecidableEq

/-- What reaches the framework boundary for one request: either the
handler returned a structured response, or an exception escaped the
handler uncaught (the framework then renders a generic error page,
not a structured payload). -/
inductive HandlerOutcome where
  | resp (r : Resp)
  | raised (e : PyErr)
deriving Repr, DecidableEq

/-- True when the handler returned a structured payload of its own. -/
def HandlerOutcome.isResp : HandlerOutcome → Bool
  | .resp _ => true
  | .raised _ => false

/-- Result of one server-mode request: the outcome at the framework
boundary, the ordered trace of external calls, and the working-tree
lifecycle events. -/
structure RunOut where
  outcome : HandlerOutcome
  calls : List Call
  tree : List TreeEvent
deriving Repr, DecidableEq

/-- Result of one one-shot (command-line) invocation. -/
inductive CliOutcome where
  | ok
  | exited (code : Nat)
  | raised (e : PyErr)
deriving Repr, DecidableEq

/-- Outcome, call trace and working-tree events of a one-shot run. -/
structure CliOut where
  outcome : CliOutcome
  calls : List Call
  tree : List TreeEvent
deriving Repr, DecidableEq

/-- A parsed JSON request body, projected onto the fields the handlers
inspect. A field is none when the key is absent from the body; a config
field holds either a string or an inline structured payload. -/
structure ReqBody where
  repo_url : Option String
  repo_branch : Option String
  deploy_config : Option (String ⊕ Val)
  service_config : Option (String ⊕ Val)

/-- Parsed docopt arguments of the one-shot command form. The branch
has docopt default main, so it is always a string. -/
structure CliArgs where
  repo_url : String
  branch : String
  deploy_conf : Option String
  service_conf : Option String
  restartName : Option String
  deleteName : Option String

/-- Behaviour of the external collaborators for one run: the filesystem,
the YAML loader, git, the host platform, the docker registry and engine,
and the cluster API. Each field is the outcome the collaborator would
give if called. -/
structure World where
  tmpdir : String
  cloneOk : String → Bool
  branchOk : String → Bool
  fs : String → Option String
  yamlLoad : String → Except String Val
  sysName : String
  machine : String
  registry : String → Except String (String × List (String × String))
  buildErr : Option String
  pushErr : Option String
  kubeCreateErr : Option (Nat × String)
  kubePatchErr : Option (Nat × String)
  kubeDeleteErr : Option (Nat × String)

/-- Lowercase a string character by character, as str.lower does. -/
def strToLower (s : String) : String :=
  String.mk (s.data.map Char.toLower)

/-- Join strings with a comma and a space, as str.join does in the
ArchNotSupported message. -/
def joinComma : List String → String
  | [] => ""
  | [s] => s
  | s :: rest => s ++ ", " ++ joinComma rest

/-- Split a character list at newline characters, accumulating the
current line in reverse. -/
def splitLinesAux : List Char → List Char → List (List Char)
  | [], acc => [acc.reverse]
  | c :: cs, acc =>
    if c = '\n' then acc.reverse :: splitLinesAux cs []
    else splitLinesAux cs (c :: acc)

/-- Match one line against the base-image declaration pattern
FROM (.+:?.+) with IGNORECASE: the line must open with FROM in any
case followed by a space, and at least two characters must follow. -/
def fromLineOf : List Char → Option String
  | c1 :: c2 :: c3 :: c4 :: c5 :: rest =>
    if ([c1, c2, c3, c4, c5].map Char.toUpper = ['F', 'R', 'O', 'M', ' ']
        ∧ 2 ≤ rest.length) then
      some (String.mk rest)
    else none
  | _ => none

/-- Scan the build recipe content for its first base-image declaration,
line by line in order, as re.search with re.MULTILINE does. -/
def findFromLine (content : String) : Option String :=
  (splitLinesAux content.data []).findSome? fromLineOf

/-- Python subscript v[k] with a string key: only a mapping yields a
value or a KeyError; other shapes raise a TypeError. -/
def pyKey : Val → String → Except PyErr Val
  | .vobj kvs, k =>
    match kvs.lookup k with
    | some v => .ok v
    | none => .error (.keyError k)
  | _, _ => .error (.typeError ("object is not subscriptable by string key"))

/-- Python subscript v[i] with an integer index. -/
def pyIdx : Val → Nat → Except PyErr Val
  | .varr xs, i =>
    match xs.get? i with
    | some v => .ok v
    | none => .error .indexError
  | .vstr s, i =>
    match s.data.get? i with
    | some c => .ok (.vstr (String.mk [c]))
    | none => .error .indexError
  | .vobj _, i => .error (.keyError (toString i))
  | _, _ => .error (.typeError ("object is not subscriptable by index"))

/-- Evaluate deploy_conf spec template spec containers 0 image, the
subscript chain at build-service.py line 163. The docker engine rejects
a tag that is not a string, folded in as the final type error. -/
def extract_image (deploy_conf : Option Val) : Except PyErr String :=
  match deploy_conf with
  | none => .error (.typeError ("NoneType object is not subscriptable"))
  | some v =>
    match pyKey v ("spec") with
    | .error e => .error e
    | .ok v1 =>
      match pyKey v1 ("template") with
      | .error e => .error e
      | .ok v2 =>
        match pyKey v2 ("spec") with
        | .error e => .error e
        | .ok v3 =>
          match pyKey v3 ("containers") with
          | .error e => .error e
          | .ok v4 =>
            match pyIdx v4 0 with
            | .error e => .error e
            | .ok v5 =>
              match pyKey v5 ("image") with
              | .error e => .error e
              | .ok (.vstr s) => .ok s
              | .ok _ => .error (.typeError ("image tag must be a string"))

/-- Render an exception the way str(e) does when interpolated into the
handlers' error payloads, following each exception class. -/
def PyErr.str : PyErr → String
  | .missingConfigFile f =>
      "config file not found in repo or specified in request: " ++ f
  | .badGitRepo => "unable to clone repo"
  | .badGitBranch b => "unable to checkout branch \x27" ++ b ++ "\x27"
  | .archNotSupported i a s =>
      "image \x27" ++ i ++ "\x27 does not support " ++ a
        ++ " (supports " ++ joinComma s ++ ")"
  | .fileNotFound p => "[Errno 2] No such file or directory: \x27" ++ p ++ "\x27"
  | .attributeError => "NoneType object has no attribute groups"
  | .keyError k => "\x27" ++ k ++ "\x27"
  | .typeError m => m
  | .indexError => "list index out of range"
  | .yamlError m => m
  | .apiError m => m
  | .dockerBuildErr m => m
  | .dockerPushErr m => m
  | .badRequest m => m

/-- Keep a prefix of the URL only when present, returning the rest. -/
def stripUrlHead (p s : String) : Option String :=
  if p.data.isPrefixOf s.data then some (String.mk (s.data.drop p.data.length))
  else none

/-- Rewrite of the clone URL at build-service.py line 118: the regex
sub of a leading http or https scheme, with an optional empty-cred
marker, by the anonymous-credential https form. -/
def normalize_repo_url (repo : String) : String :=
  match stripUrlHead ("https://:@") repo with
  | some rest => "https://:@" ++ rest
  | none =>
    match stripUrlHead ("http://:@") repo with
    | some rest => "https://:@" ++ rest
    | none =>
      match stripUrlHead ("https://") repo with
      | some rest => "https://:@" ++ rest
      | none =>
        match stripUrlHead ("http://") repo with
        | some rest => "https://:@" ++ rest
        | none => repo

/-- The arch translation table at build-service.py lines 145-151. -/
def platform_mappings : List (String × String) :=
  [("python", "docker"), ("x86", "386"), ("x86_64", "amd64"),
   ("armv7l", "arm"), ("aarch64", "arm64")]

/-- Python truthiness of a docopt option value: None and the empty
string are falsy. -/
def truthyOpt : Option String → Bool
  | none => false
  | some s => s != ""

/-- Embedding of load_config_file: open the file (the read attempt is
traced even when it fails), translate FileNotFoundError into
MissingConfigFile, then hand the content to the YAML loader. -/
def load_config_file (w : World) (filename : String) :
    Except PyErr Val × List Call :=
  (match w.fs filename with
   | none => .error (.missingConfigFile filename)
   | some content =>
     match w.yamlLoad content with
     | .error m => .error (.yamlError m)
     | .ok v => .ok v,
   [Call.readFile filename])

/-- Embedding of get_deploy_conf: default the reference to the standard
filename when absent, load from the repo when the reference is a string,
and otherwise fall off the end of the function returning None. -/
def get_deploy_conf (w : World) (deploy_conf : Option (String ⊕ Val))
    (repo_dir : String) : Except PyErr (Option Val) × List Call :=
  let dc := match deploy_conf with
    | none => some (Sum.inl ("kaas.deploy.yml"))
    | x => x
  match dc with
  | some (Sum.inl s) =>
    let r := load_config_file w (repo_dir ++ "/" ++ s)
    (Except.map some r.1, r.2)
  | _ => (.ok none, [])

/-- Embedding of get_service_conf, identical in shape to
get_deploy_conf but with the service default filename. -/
def get_service_conf (w : World) (service_conf : Option (String ⊕ Val))
    (repo_dir : String) : Except PyErr (Option Val) × List Call :=
  let sc := match service_conf with
    | none => some (Sum.inl ("kaas.service.yml"))
    | x => x
  match sc with
  | some (Sum.inl s) =>
    let r := load_config_file w (repo_dir ++ "/" ++ s)
    (Except.map some r.1, r.2)
  | _ => (.ok none, [])

/-- Embedding of clone_repo: rewrite the URL, clone (BadGitRepo on
failure), then check the branch out when one was given (BadGitBranch
on failure). -/
def clone_repo (w : World) (repo : String) (branch : Option String)
    (repo_dir : String) : Except PyErr Unit × List Call :=
  let url := normalize_repo_url repo
  if w.cloneOk url then
    match branch with
    | none => (.ok (), [Call.gitClone url repo_dir])
    | some b =>
      if w.branchOk b then
        (.ok (), [Call.gitClone url repo_dir, Call.gitCheckout b])
      else
        (.error (.badGitBranch b), [Call.gitClone url repo_dir, Call.gitCheckout b])
  else (.error .badGitRepo, [Call.gitClone url repo_dir])

/-- Embedding of build_repo: read the build recipe, extract the base
image, map the host platform through the translation table, fetch the
registry platform manifest, refuse unsupported architectures, read the
image tag out of the deploy descriptor, build, then push to the local
registry. The branch and service descriptor are only logged. -/
def build_repo (w : World) (repo_dir : String) (branch : Option String)
    (deploy_conf service_conf : Option Val) : Except PyErr String × List Call :=
  match w.fs (repo_dir ++ "/Dockerfile") with
  | none => (.error (.fileNotFound (repo_dir ++ "/Dockerfile")),
             [Call.readFile (repo_dir ++ "/Dockerfile")])
  | some content =>
    let c0 := [Call.readFile (repo_dir ++ "/Dockerfile")]
    match findFromLine content with
    | none => (.error .attributeError, c0)
    | some fromname =>
      match platform_mappings.lookup w.machine with
      | none => (.error (.keyError w.machine), c0)
      | some arch =>
        let platform_str := strToLower (w.sysName ++ "/" ++ arch)
        let c1 := c0 ++ [Call.getRegistryData fromname]
        match w.registry fromname with
        | .error m => (.error (.apiError m), c1)
        | .ok (image_name_attr, plats) =>
          let platforms := plats.map (fun p => p.1 ++ "/" ++ p.2)
          if platform_str ∈ platforms then
            match extract_image deploy_conf with
            | .error e => (.error e, c1)
            | .ok image_name =>
              let c2 := c1 ++ [Call.dockerBuild repo_dir image_name]
              match w.buildErr with
              | some m => (.error (.dockerBuildErr m), c2)
              | none =>
                let c3 := c2 ++ [Call.dockerPush ("localhost:5000/" ++ image_name)]
                match w.pushErr with
                | some m => (.error (.dockerPushErr m), c3)
                | none => (.ok image_name, c3)
          else
            (.error (.archNotSupported image_name_attr platform_str platforms), c1)

/-- Body of the POST handler inside the temporary-directory scope:
clone and config resolution run unprotected (their exceptions escape
the handler), build_repo and the cluster create run under their try
blocks, and the structured payloads of the source are returned. -/
def build_pipeline (w : World) (url br : String) (dcl scl : String ⊕ Val) :
    HandlerOutcome × List Call :=
  let rd := w.tmpdir
  let cl := clone_repo w url (some br) rd
  match cl.1 with
  | .error e => (.raised e, cl.2)
  | .ok _ =>
    let gd := get_deploy_conf w (some dcl) rd
    match gd.1 with
    | .error e => (.raised e, cl.2 ++ gd.2)
    | .ok dconf =>
      let gs := get_service_conf w (some scl) rd
      match gs.1 with
      | .error e => (.raised e, cl.2 ++ gd.2 ++ gs.2)
      | .ok sconf =>
        let br2 := build_repo w rd (some br) dconf sconf
        let calls := cl.2 ++ gd.2 ++ gs.2 ++ br2.2
        match br2.1 with
        | .error e => (.resp (.err ("Failed to build: " ++ e.str) 500), calls)
        | .ok image_name =>
          let calls2 := calls ++ [Call.kubeCreate ("default")]
          match w.kubeCreateErr with
          | some p => (.resp (.err ("Failed to deploy: " ++ p.2) 500), calls2)
          | none => (.resp (.ok image_name), calls2)

/-- Embedding of the POST handler build_request: require all four body
keys, then run the pipeline body bracketed by the temporary-directory
scope, whose removal runs on every exit of the body. -/
def build_request (w : World) (body : ReqBody) : RunOut :=
  match body.repo_url, body.repo_branch, body.deploy_config, body.service_config with
  | some url, some br, some dcl, some scl =>
    let r := build_pipeline w url br dcl scl
    ⟨r.1, r.2, [.created, .removed]⟩
  | _, _, _, _ => ⟨.resp (.err ("Bad request: missing keys") 400), [], []⟩

/-- Embedding of the DELETE handler delete_request: the body is parsed
as JSON first (a parse failure raises out of the handler before any
cluster call), then the one cluster delete runs; its ApiException is
reported with the message prefix the source uses. -/
def delete_request (w : World) (image_name : String)
    (bodyJson : Except String ReqBody) : RunOut :=
  match bodyJson with
  | .error m => ⟨.raised (.badRequest m), [], []⟩
  | .ok _ =>
    let calls := [Call.kubeDelete image_name ("default")]
    match w.kubeDeleteErr with
    | some p => ⟨.resp (.err ("Failed to deploy: " ++ p.2) 500), calls, []⟩
    | none => ⟨.resp (.ok image_name), calls, []⟩

/-- Body of the PATCH handler inside the temporary-directory scope:
clone and deploy-config resolution run unprotected, then the patch
runs under its try. -/
def restart_pipeline (w : World) (image_name url br : String)
    (dcl : String ⊕ Val) : HandlerOutcome × List Call :=
  let rd := w.tmpdir
  let cl := clone_repo w url (some br) rd
  match cl.1 with
  | .error e => (.raised e, cl.2)
  | .ok _ =>
    let gd := get_deploy_conf w (some dcl) rd
    match gd.1 with
    | .error e => (.raised e, cl.2 ++ gd.2)
    | .ok _dconf =>
      let calls := cl.2 ++ gd.2 ++ [Call.kubePatch image_name ("default")]
      match w.kubePatchErr with
      | some p => (.resp (.err ("Failed to restart: " ++ p.2) 500), calls)
      | none => (.resp (.ok image_name), calls)

/-- Embedding of the PATCH handler restart_request: require three body
keys, then run the pipeline body bracketed by the temporary-directory
scope. -/
def restart_request (w : World) (image_name : String) (body : ReqBody) : RunOut :=
  match body.repo_url, body.repo_branch, body.deploy_config with
  | some url, some br, some dcl =>
    let r := restart_pipeline w image_name url br dcl
    ⟨r.1, r.2, [.created, .removed]⟩
  | _, _, _ => ⟨.resp (.err ("Bad request: missing keys") 400), [], []⟩

/-- Embedding of the one-shot main path (non-daemon): inside the
temporary-directory scope, clone, resolve both configs, then branch on
the restart and delete flags, else build and create; stage failures
exit nonzero or escape, and the directory scope closes on every path,
including the early exits. -/
def cli_pipeline (w : World) (args : CliArgs) : CliOutcome × List Call :=
  let rd := w.tmpdir
  let cl := clone_repo w args.repo_url (some args.branch) rd
  match cl.1 with
  | .error e => (.raised e, cl.2)
  | .ok _ =>
    let gd := get_deploy_conf w (args.deploy_conf.map Sum.inl) rd
    match gd.1 with
    | .error e => (.raised e, cl.2 ++ gd.2)
    | .ok dconf =>
      let gs := get_service_conf w (args.service_conf.map Sum.inl) rd
      match gs.1 with
      | .error e => (.raised e, cl.2 ++ gd.2 ++ gs.2)
      | .ok sconf =>
        let base := cl.2 ++ gd.2 ++ gs.2
        if truthyOpt args.restartName then
          let calls := base ++ [Call.kubePatch (args.restartName.getD ("")) ("default")]
          match w.kubePatchErr with
          | some _ => (.exited 1, calls)
          | none => (.ok, calls)
        else if truthyOpt args.deleteName then
          let calls := base ++ [Call.kubeDelete (args.deleteName.getD ("")) ("default")]
          match w.kubeDeleteErr with
          | some _ => (.exited 1, calls)
          | none => (.ok, calls)
        else
          let br := build_repo w rd (some args.branch) dconf sconf
          match br.1 with
          | .error _ => (.exited 1, base ++ br.2)
          | .ok _ =>
            let calls := base ++ br.2 ++ [Call.kubeCreate ("default")]
            match w.kubeCreateErr with
            | some _ => (.exited 1, calls)
            | none => (.ok, calls)

/-- One-shot run: the pipeline body bracketed by the temporary-directory
scope, whose removal runs on each exit of the body, the early process
exits included. -/
def cli_run (w : World) (args : CliArgs) : CliOut :=
  let r := cli_pipeline w args
  ⟨r.1, r.2, [.created, .removed]⟩

/-- Deploy descriptor used in the concrete runs below, carrying the
image tag svc:1 at the container-spec path. -/
def exVal : Val :=
  .vobj [("spec", .vobj [("template", .vobj [("spec",
    .vobj [("containers", .varr [.vobj [("image", .vstr ("svc:1"))]])])])])]

/-- Filesystem of the concrete runs: a build recipe based on python:3
and both default config files inside the working tree. -/
def exFs : String → Option String := fun p =>
  if p = "/tmp/kaas-repo-build-0/Dockerfile" then some ("FROM python:3\n")
  else if p = "/tmp/kaas-repo-build-0/kaas.deploy.yml" then some ("deploy-doc")
  else if p = "/tmp/kaas-repo-build-0/kaas.service.yml" then some ("service-doc")
  else none

/-- YAML loader of the concrete runs: the deploy document parses to the
example descriptor, anything else to null. -/
def exYaml : String → Except String Val := fun c =>
  if c = "deploy-doc" then .ok exVal else .ok .vnull

/-- Concrete collaborator behaviour, parameterized by the outcomes the
individual claims vary: clone success, the published platform list,
push failure, and the cluster delete failure. -/
def mkWorld (cloneOk : Bool) (plats : List (String × String))
    (pushErr : Option String) (kdErr : Option (Nat × String)) : World :=
  ⟨"/tmp/kaas-repo-build-0",
   fun _ => cloneOk,
   fun _ => true,
   exFs,
   exYaml,
   "Linux",
   "x86_64",
   fun _ => .ok ("python", plats),
   none,
   pushErr,
   none,
   none,
   kdErr⟩

/-- Fully successful world: everything reachable, amd64 supported,
every engine call succeeds. -/
def exWorld : World := mkWorld true [("linux", "amd64")] none none

/-- World whose clone fails, as for an unreachable source. -/
def wBadClone : World := mkWorld false [("linux", "amd64")] none none

/-- World whose base image publishes only linux/arm64 while the host
maps to linux/amd64. -/
def wArm : World := mkWorld true [("linux", "arm64")] none none

/-- World whose registry push fails after a successful build. -/
def wPushFail : World :=
  mkWorld true [("linux", "amd64")] (some ("connection refused")) none

/-- World whose cluster delete fails with a 404, as for a nonexistent
workload. -/
def wDelete404 : World :=
  mkWorld true [("linux", "amd64")] none (some (404, "Not Found"))

/-- Well-formed request body carrying all four keys. -/
def exBody : ReqBody :=
  ⟨some ("https://example.com/repo.git"), some ("main"),
   some (Sum.inl ("kaas.deploy.yml")), some (Sum.inl ("kaas.service.yml"))⟩

/-- One-shot arguments asking only for a delete. -/
def cliDeleteArgs : CliArgs :=
  ⟨"https://example.com/repo.git", "main", none, none, none, some ("app")⟩

/-- With a reachable source and an existing branch, clone_repo returns
successfully after a clone and a checkout. -/
theorem clone_repo_ok_eq (w : World) (url br rd : String)
    (h1 : w.cloneOk (normalize_repo_url url) = true)
    (h2 : w.branchOk br = true) :
    clone_repo w url (some br) rd
      = (.ok (), [Call.gitClone (normalize_repo_url url) rd, Call.gitCheckout br]) := by
  unfold clone_repo
  simp [h1, h2]

/-- Config resolution touches at most one file. -/
theorem get_deploy_conf_trace (w : World) (r : Option (String ⊕ Val)) (rd : String) :
    (get_deploy_conf w r rd).2 = [] ∨
      ∃ p, (get_deploy_conf w r rd).2 = [Call.readFile p] := by
  rcases r with _ | ⟨s | v⟩ <;> simp [get_deploy_conf, load_config_file]

/-- Service config resolution touches at most one file. -/
theorem get_service_conf_trace (w : World) (r : Option (String ⊕ Val)) (rd : String) :
    (get_service_conf w r rd).2 = [] ∨
      ∃ p, (get_service_conf w r rd).2 = [Call.readFile p] := by
  rcases r with _ | ⟨s | v⟩ <;> simp [get_service_conf, load_config_file]

/-- Claim C6: for every pipeline run, in server mode (create, restart)
and in one-shot mode, the temporary working tree created at checkout
start is removed when the run ends, on every exit path — success, any
stage failure, and early process exit; a run that is rejected before
checkout creates no tree at all. -/
theorem c6_working_tree_removed (w : World) (b : ReqBody) (name : String)
    (rb : ReqBody) (args : CliArgs) :
    ((build_request w b).tree = [] ∨
      (build_request w b).tree = [TreeEvent.created, TreeEvent.removed]) ∧
    ((restart_request w name rb).tree = [] ∨
      (restart_request w name rb).tree = [TreeEvent.created, TreeEvent.removed]) ∧
    (cli_run w args).tree = [TreeEvent.created, TreeEvent.removed] := by
  refine ⟨?_, ?_, rfl⟩
  · obtain ⟨u, br, dc, sc⟩ := b
    cases u <;> cases br <;> cases dc <;> cases sc <;> simp [build_request]
  · obtain ⟨u, br, dc, sc⟩ := rb
    cases u <;> cases br <;> cases dc <;> simp [restart_request]

/-- Claim C10: the server-mode delete handler parses the request body
as JSON before issuing the cluster delete, so an unparseable body
raises out of the handler with no cluster call made, while a parseable
body leads to exactly the one delete call. -/
theorem c10_delete_parses_body_first (w w2 : World) (name name2 m : String)
    (b : ReqBody) :
    delete_request w name (.error m) = ⟨.raised (.badRequest m), [], []⟩ ∧
    (delete_request w2 name2 (.ok b)).calls = [Call.kubeDelete name2 ("default")] := by
  refine ⟨rfl, ?_⟩
  unfold delete_request
  dsimp only
  split <;> rfl

/-- Claim C4, counterexample: an inline object reference is not parsed
into a descriptor — the resolver returns None for it — and a serialized
string reference is treated as a repository-relative path, for which
the filesystem is read. -/
theorem c4_counterexample_inline_ref :
    (get_deploy_conf exWorld (some (Sum.inr exVal)) ("/tmp/kaas-repo-build-0")).1
      = .ok none ∧
    (Except.ok none : Except PyErr (Option Val)) ≠ .ok (some exVal) ∧
    (get_deploy_conf exWorld (some (Sum.inl ("apiVersion: v1")))
        ("/tmp/kaas-repo-build-0")).2
      = [Call.readFile ("/tmp/kaas-repo-build-0/apiVersion: v1")] := by
  refine ⟨rfl, ?_, rfl⟩
  simp

/-- Claim C4 as amended: a reference that is already a structured
object yields no descriptor and no file read in both resolvers, and a
string reference — even one holding a serialized document — is always
read as a repository-relative path from the working tree. -/
theorem c4_amended_inline_ref_behavior (w : World) (d : Val) (s rd : String) :
    get_deploy_conf w (some (Sum.inr d)) rd = (.ok none, []) ∧
    get_service_conf w (some (Sum.inr d)) rd = (.ok none, []) ∧
    (get_deploy_conf w (some (Sum.inl s)) rd).2
      = [Call.readFile (rd ++ "/" ++ s)] := by
  refine ⟨rfl, rfl, ?_⟩
  unfold get_deploy_conf load_config_file
  dsimp only

/-- Claim C8, counterexample: a create request carrying the source URL,
the branch and the deploy config but omitting the service config is
rejected with the missing-keys error before any external call. -/
theorem c8_counterexample_missing_service_config :
    build_request exWorld ⟨some ("https://example.com/repo.git"), some ("main"),
        some (Sum.inl ("kaas.deploy.yml")), none⟩
      = ⟨.resp (.err ("Bad request: missing keys") 400), [], []⟩ := rfl

/-- Claim C8 as amended: the server-mode create handler requires all
four body keys, the service config included; whenever the service
config key is absent the request is rejected with the missing-keys
error, before any external call and before any working tree exists. -/
theorem c8_amended_service_config_required (w : World) (b : ReqBody)
    (h : b.service_config = none) :
    build_request w b = ⟨.resp (.err ("Bad request: missing keys") 400), [], []⟩ := by
  obtain ⟨u, br, dc, sc⟩ := b
  dsimp only at h
  subst h
  cases u <;> cases br <;> cases dc <;> rfl

/-- Concrete instance of the amended claim C8. -/
theorem c8_amended_witness :
    build_request exWorld ⟨some ("https://example.com/repo.git"), some ("main"),
        some (Sum.inl ("kaas.deploy.yml")), none⟩
      = ⟨.resp (.err ("Bad request: missing keys") 400), [], []⟩ :=
  c8_amended_service_config_required exWorld _ rfl

/-- Claim C3, counterexample: with every body key present but an
unreachable source, the create handler neither returns the success
payload nor the error payload — the clone failure escapes the handler
uncaught. -/
theorem c3_counterexample_clone_escapes :
    (build_request wBadClone exBody).outcome = .raised PyErr.badGitRepo ∧
    ((build_request wBadClone exBody).outcome).isResp = false :=
  ⟨rfl, rfl⟩

/-- Claim C7, counterexample: in one-shot mode a delete-only invocation
still clones the source and reads both config files before the cluster
delete, so the cluster delete is not the only external call. -/
theorem c7_counterexample_cli_delete_clones :
    (cli_run exWorld cliDeleteArgs).calls
      = [Call.gitClone ("https://:@example.com/repo.git") ("/tmp/kaas-repo-build-0"),
         Call.gitCheckout ("main"),
         Call.readFile ("/tmp/kaas-repo-build-0/kaas.deploy.yml"),
         Call.readFile ("/tmp/kaas-repo-build-0/kaas.service.yml"),
         Call.kubeDelete ("app") ("default")] ∧
    Call.gitClone ("https://:@example.com/repo.git") ("/tmp/kaas-repo-build-0")
      ∈ (cli_run exWorld cliDeleteArgs).calls := by
  refine ⟨rfl, ?_⟩
  have h : (cli_run exWorld cliDeleteArgs).calls
      = [Call.gitClone ("https://:@example.com/repo.git") ("/tmp/kaas-repo-build-0"),
         Call.gitCheckout ("main"),
         Call.readFile ("/tmp/kaas-repo-build-0/kaas.deploy.yml"),
         Call.readFile ("/tmp/kaas-repo-build-0/kaas.service.yml"),
         Call.kubeDelete ("app") ("default")] := rfl
  rw [h]
  simp

/-- Claim C7 as amended: in server mode the remove handler performs the
cluster delete and nothing else once the body parses, and on a failing
delete — as for a nonexistent workload — it returns the tagged error
payload, still having made no other external call. -/
theorem c7_amended_server_remove_only_delete (w : World) (name : String)
    (b : ReqBody) (st : Nat) (m : String) :
    (delete_request w name (.ok b)).calls = [Call.kubeDelete name ("default")] ∧
    (w.kubeDeleteErr = some (st, m) →
      (delete_request w name (.ok b)).outcome
        = .resp (.err ("Failed to deploy: " ++ m) 500)) := by
  constructor
  · unfold delete_request
    dsimp only
    split <;> rfl
  · intro h
    unfold delete_request
    dsimp only
    rw [h]

/-- A successful build_repo run returns exactly the image tag extracted
from the deploy descriptor, and its trace holds the engine build call
labeled with that same tag. -/
theorem build_repo_ok_pair (w : World) (rd : String) (b : Option String)
    (dc sc : Option Val) (v : String) (cs : List Call)
    (h : build_repo w rd b dc sc = (.ok v, cs)) :
    extract_image dc = .ok v ∧ Call.dockerBuild rd v ∈ cs := by
  unfold build_repo at h
  dsimp only at h
  repeat' split at h
  all_goals simp_all
  obtain ⟨hv, hcs⟩ := h
  subst hv
  subst hcs
  simp

/-- Claim C2: when the mapped host platform string is absent from the
base image's published platform list, build_repo fails with the
ArchNotSupported error carrying the image reference, the host platform
string and the supported platform list, and the engine build operation
is never invoked in that run. -/
theorem c2_arch_unsupported_blocks_build (w : World) (rd : String)
    (branch : Option String) (dc sc : Option Val)
    (content fromname arch iname : String) (plats : List (String × String))
    (hdf : w.fs (rd ++ "/Dockerfile") = some content)
    (hfrom : findFromLine content = some fromname)
    (hmap : platform_mappings.lookup w.machine = some arch)
    (hreg : w.registry fromname = .ok (iname, plats))
    (hns : strToLower (w.sysName ++ "/" ++ arch)
        ∉ plats.map (fun p => p.1 ++ "/" ++ p.2)) :
    (build_repo w rd branch dc sc).1
      = .error (.archNotSupported iname (strToLower (w.sysName ++ "/" ++ arch))
          (plats.map (fun p => p.1 ++ "/" ++ p.2))) ∧
    ∀ p t, Call.dockerBuild p t ∉ (build_repo w rd branch dc sc).2 := by
  have hb : build_repo w rd branch dc sc
      = (.error (.archNotSupported iname (strToLower (w.sysName ++ "/" ++ arch))
            (plats.map (fun p => p.1 ++ "/" ++ p.2))),
         [Call.readFile (rd ++ "/Dockerfile"), Call.getRegistryData fromname]) := by
    simp only [build_repo, hdf, hfrom, hmap, hreg]
    rw [if_neg hns]
    simp
  refine ⟨by rw [hb], ?_⟩
  intro p t hmem
  rw [hb] at hmem
  simp at hmem

/-- Concrete instance of claim C2: the host maps to linux/amd64, the
base image publishes only linux/arm64, and the run fails on the
architecture check with no engine build. -/
theorem c2_arch_unsupported_witness :
    (build_repo wArm ("/tmp/kaas-repo-build-0") (some ("main")) (some exVal) none).1
      = .error (.archNotSupported ("python") ("linux/amd64") (["linux/arm64"])) ∧
    Call.dockerBuild ("/tmp/kaas-repo-build-0") ("svc:1")
      ∉ (build_repo wArm ("/tmp/kaas-repo-build-0") (some ("main")) (some exVal) none).2 := by
  have h := c2_arch_unsupported_blocks_build wArm ("/tmp/kaas-repo-build-0")
    (some ("main")) (some exVal) none ("FROM python:3\n") ("python:3") ("amd64")
    ("python") ([("linux", "arm64")]) rfl rfl rfl rfl (by decide)
  exact ⟨h.1, h.2 ("/tmp/kaas-repo-build-0") ("svc:1")⟩

/-- Claim C9: after a successful build the reference handed to the
registry push is localhost:5000/ prepended to the image tag taken from
the deploy descriptor, a reference distinct from the tag the build
applied, and the pipeline never invokes the engine tag operation on
the built image. -/
theorem c9_push_ref_prefixed (w : World) (rd : String)
    (branch : Option String) (dc sc : Option Val)
    (content fromname arch iname t : String) (plats : List (String × String))
    (hdf : w.fs (rd ++ "/Dockerfile") = some content)
    (hfrom : findFromLine content = some fromname)
    (hmap : platform_mappings.lookup w.machine = some arch)
    (hreg : w.registry fromname = .ok (iname, plats))
    (hmem : strToLower (w.sysName ++ "/" ++ arch)
        ∈ plats.map (fun p => p.1 ++ "/" ++ p.2))
    (himg : extract_image dc = .ok t)
    (hbuild : w.buildErr = none) :
    Call.dockerBuild rd t ∈ (build_repo w rd branch dc sc).2 ∧
    Call.dockerPush ("localhost:5000/" ++ t) ∈ (build_repo w rd branch dc sc).2 ∧
    "localhost:5000/" ++ t ≠ t ∧
    ∀ i r2, Call.dockerTag i r2 ∉ (build_repo w rd branch dc sc).2 := by
  have hb : (build_repo w rd branch dc sc).2
      = [Call.readFile (rd ++ "/Dockerfile"), Call.getRegistryData fromname,
         Call.dockerBuild rd t, Call.dockerPush ("localhost:5000/" ++ t)] := by
    simp only [build_repo, hdf, hfrom, hmap, hreg, himg, hbuild]
    rw [if_pos hmem]
    rcases hp : w.pushErr with _ | m <;> simp
  refine ⟨by rw [hb]; simp, by rw [hb]; simp, ?_, ?_⟩
  · intro hcontra
    have hlen := congrArg String.length hcontra
    rw [String.length_append] at hlen
    have h15 : ("localhost:5000/").length = 15 := rfl
    rw [h15] at hlen
    omega
  · intro i r2 hmem2
    rw [hb] at hmem2
    simp at hmem2

/-- Concrete instance of claim C9 on a fully successful run. -/
theorem c9_push_ref_prefixed_witness :
    Call.dockerBuild ("/tmp/kaas-repo-build-0") ("svc:1")
      ∈ (build_repo exWorld ("/tmp/kaas-repo-build-0") (some ("main")) (some exVal) none).2 ∧
    Call.dockerPush ("localhost:5000/svc:1")
      ∈ (build_repo exWorld ("/tmp/kaas-repo-build-0") (some ("main")) (some exVal) none).2 ∧
    "localhost:5000/" ++ "svc:1" ≠ "svc:1" ∧
    Call.dockerTag ("svc:1") ("localhost:5000/svc:1")
      ∉ (build_repo exWorld ("/tmp/kaas-repo-build-0") (some ("main")) (some exVal) none).2 := by
  have h := c9_push_ref_prefixed exWorld ("/tmp/kaas-repo-build-0") (some ("main"))
    (some exVal) none ("FROM python:3\n") ("python:3") ("amd64") ("python") ("svc:1")
    ([("linux", "amd64")]) rfl rfl rfl rfl (by decide) rfl rfl
  exact ⟨h.1, h.2.1, h.2.2.1, h.2.2.2 ("svc:1") ("localhost:5000/svc:1")⟩

/-- Claim C5: when the image build succeeds but the registry push
fails, the create pipeline fails with the push error surfaced in the
tagged error payload rather than continuing, and the cluster create is
never attempted. -/
theorem c5_push_failure_aborts (w : World) (url br t : String)
    (dcl scl : String ⊕ Val) (dc sc : Option Val)
    (content fromname arch iname m : String) (plats : List (String × String))
    (h1 : w.cloneOk (normalize_repo_url url) = true)
    (h2 : w.branchOk br = true)
    (h3 : (get_deploy_conf w (some dcl) w.tmpdir).1 = .ok dc)
    (h4 : (get_service_conf w (some scl) w.tmpdir).1 = .ok sc)
    (hdf : w.fs (w.tmpdir ++ "/Dockerfile") = some content)
    (hfrom : findFromLine content = some fromname)
    (hmap : platform_mappings.lookup w.machine = some arch)
    (hreg : w.registry fromname = .ok (iname, plats))
    (hmem : strToLower (w.sysName ++ "/" ++ arch)
        ∈ plats.map (fun p => p.1 ++ "/" ++ p.2))
    (himg : extract_image dc = .ok t)
    (hbuild : w.buildErr = none)
    (hpush : w.pushErr = some m) :
    (build_request w ⟨some url, some br, some dcl, some scl⟩).outcome
      = .resp (.err ("Failed to build: " ++ m) 500) ∧
    ∀ ns, Call.kubeCreate ns
      ∉ (build_request w ⟨some url, some br, some dcl, some scl⟩).calls := by
  have hcl := clone_repo_ok_eq w url br w.tmpdir h1 h2
  have hbr : build_repo w w.tmpdir (some br) dc sc
      = (.error (.dockerPushErr m),
         [Call.readFile (w.tmpdir ++ "/Dockerfile"), Call.getRegistryData fromname,
          Call.dockerBuild w.tmpdir t,
          Call.dockerPush ("localhost:5000/" ++ t)]) := by
    simp only [build_repo, hdf, hfrom, hmap, hreg, himg, hbuild, hpush]
    rw [if_pos hmem]
    simp
  constructor
  · simp [build_request, build_pipeline, hcl, h3, h4, hbr, PyErr.str]
  · intro ns
    rcases get_deploy_conf_trace w (some dcl) w.tmpdir with hgd | ⟨p, hgd⟩ <;>
      rcases get_service_conf_trace w (some scl) w.tmpdir with hgs | ⟨q, hgs⟩ <;>
        simp [build_request, build_pipeline, hcl, h3, h4, hbr, hgd, hgs]

/-- Concrete instance of claim C5: the push fails with a connection
error, the handler reports the tagged build-stage failure, and no
cluster create is attempted. -/
theorem c5_push_failure_aborts_witness :
    (build_request wPushFail exBody).outcome
      = .resp (.err ("Failed to build: " ++ "connection refused") 500) ∧
    Call.kubeCreate ("default") ∉ (build_request wPushFail exBody).calls := by
  have h := c5_push_failure_aborts wPushFail ("https://example.com/repo.git") ("main")
    ("svc:1") (Sum.inl ("kaas.deploy.yml")) (Sum.inl ("kaas.service.yml"))
    (some exVal) (some Val.vnull) ("FROM python:3\n") ("python:3") ("amd64")
    ("python") ("connection refused") ([("linux", "amd64")])
    rfl rfl rfl rfl rfl rfl rfl rfl (by decide) rfl rfl rfl
  exact ⟨h.1, h.2 ("default")⟩

/-- Claim C3 as amended: once clone, branch checkout and config
resolution succeed, every later stage failure of create or restart is
caught and returned as a structured payload; but clone, checkout and
config-resolution failures — SourceUnreachable, RefNotFound,
ConfigNotFound — escape both handlers uncaught, as the counterexample
shows. -/
theorem c3_amended_post_resolution_structured (w : World) (url br name : String)
    (dcl scl : String ⊕ Val) (dc sc : Option Val)
    (h1 : w.cloneOk (normalize_repo_url url) = true)
    (h2 : w.branchOk br = true)
    (h3 : (get_deploy_conf w (some dcl) w.tmpdir).1 = .ok dc)
    (h4 : (get_service_conf w (some scl) w.tmpdir).1 = .ok sc) :
    (∃ r, (build_request w ⟨some url, some br, some dcl, some scl⟩).outcome
        = HandlerOutcome.resp r) ∧
    (∃ r, (restart_request w name ⟨some url, some br, some dcl, some scl⟩).outcome
        = HandlerOutcome.resp r) := by
  have hcl := clone_repo_ok_eq w url br w.tmpdir h1 h2
  constructor
  · rcases hbe : build_repo w w.tmpdir (some br) dc sc with ⟨re, cs⟩
    rcases re with e2 | v
    · exact ⟨.err ("Failed to build: " ++ e2.str) 500,
        by simp [build_request, build_pipeline, hcl, h3, h4, hbe]⟩
    · rcases hk : w.kubeCreateErr with _ | p
      · exact ⟨.ok v, by simp [build_request, build_pipeline, hcl, h3, h4, hbe, hk]⟩
      · exact ⟨.err ("Failed to deploy: " ++ p.2) 500,
          by simp [build_request, build_pipeline, hcl, h3, h4, hbe, hk]⟩
  · rcases hk : w.kubePatchErr with _ | p
    · exact ⟨.ok name, by simp [restart_request, restart_pipeline, hcl, h3, hk]⟩
    · exact ⟨.err ("Failed to restart: " ++ p.2) 500,
        by simp [restart_request, restart_pipeline, hcl, h3, hk]⟩

/-- Concrete instance of the amended claim C3 on a resolving request. -/
theorem c3_amended_witness :
    (∃ r, (build_request exWorld exBody).outcome = HandlerOutcome.resp r) ∧
    (∃ r, (restart_request exWorld ("app") exBody).outcome = HandlerOutcome.resp r) :=
  c3_amended_post_resolution_structured exWorld ("https://example.com/repo.git")
    ("main") ("app") (Sum.inl ("kaas.deploy.yml")) (Sum.inl ("kaas.service.yml"))
    (some exVal) (some Val.vnull) rfl rfl rfl rfl

/-- Claim C1: for a create request with a reachable source, an existing
branch and a deploy descriptor resolving to an image tag, any success
payload carries exactly that tag — the same value used to label the
built image — and the run otherwise ends in exactly one error outcome;
a tag and an error never coexist in one run. -/
theorem c1_create_tag_or_error (w : World) (url br t : String)
    (dcl scl : String ⊕ Val) (dc : Option Val)
    (h1 : w.cloneOk (normalize_repo_url url) = true)
    (h2 : w.branchOk br = true)
    (h3 : (get_deploy_conf w (some dcl) w.tmpdir).1 = .ok dc)
    (himg : extract_image dc = .ok t) :
    (∀ t2, (build_request w ⟨some url, some br, some dcl, some scl⟩).outcome
        = .resp (.ok t2) →
      t2 = t ∧ Call.dockerBuild w.tmpdir t2
          ∈ (build_request w ⟨some url, some br, some dcl, some scl⟩).calls) ∧
    ((∃ t2, (build_request w ⟨some url, some br, some dcl, some scl⟩).outcome
        = .resp (.ok t2)) ∨
     (∃ m2, (build_request w ⟨some url, some br, some dcl, some scl⟩).outcome
        = .resp (.err m2 500)) ∨
     (∃ e, (build_request w ⟨some url, some br, some dcl, some scl⟩).outcome
        = .raised e)) := by
  have hcl := clone_repo_ok_eq w url br w.tmpdir h1 h2
  rcases hgs : (get_service_conf w (some scl) w.tmpdir).1 with e | sconf
  · refine ⟨?_, Or.inr (Or.inr ⟨e, ?_⟩)⟩
    · intro t2 ht2
      simp [build_request, build_pipeline, hcl, h3, hgs] at ht2
    · simp [build_request, build_pipeline, hcl, h3, hgs]
  · rcases hbe : build_repo w w.tmpdir (some br) dc sconf with ⟨re, cs⟩
    rcases re with e2 | v
    · refine ⟨?_, Or.inr (Or.inl ⟨"Failed to build: " ++ e2.str, ?_⟩)⟩
      · intro t2 ht2
        simp [build_request, build_pipeline, hcl, h3, hgs, hbe] at ht2
      · simp [build_request, build_pipeline, hcl, h3, hgs, hbe]
    · have hv := build_repo_ok_pair w w.tmpdir (some br) dc sconf v cs hbe
      have hvt : v = t := by
        rw [himg] at hv
        exact (Except.ok.inj hv.1).symm
      rcases hk : w.kubeCreateErr with _ | p
      · refine ⟨?_, Or.inl ⟨v, ?_⟩⟩
        · intro t2 ht2
          simp [build_request, build_pipeline, hcl, h3, hgs, hbe, hk] at ht2
          subst ht2
          refine ⟨hvt, ?_⟩
          simp [build_request, build_pipeline, hcl, h3, hgs, hbe, hk,
            List.mem_append, hv.2]
        · simp [build_request, build_pipeline, hcl, h3, hgs, hbe, hk]
      · refine ⟨?_, Or.inr (Or.inl ⟨"Failed to deploy: " ++ p.2, ?_⟩)⟩
        · intro t2 ht2
          simp [build_request, build_pipeline, hcl, h3, hgs, hbe, hk] at ht2
        · simp [build_request, build_pipeline, hcl, h3, hgs, hbe, hk]

/-- Concrete instance of claim C1 on a fully successful run: the
returned tag is the descriptor's image field and it labels the engine
build call. -/
theorem c1_create_tag_or_error_witness :
    (build_request exWorld exBody).outcome = .resp (.ok ("svc:1")) ∧
    Call.dockerBuild ("/tmp/kaas-repo-build-0") ("svc:1")
      ∈ (build_request exWorld exBody).calls := by
  have h := c1_create_tag_or_error exWorld ("https://example.com/repo.git") ("main")
    ("svc:1") (Sum.inl ("kaas.deploy.yml")) (Sum.inl ("kaas.service.yml"))
    (some exVal) rfl rfl rfl rfl
  exact ⟨rfl, (h.1 ("svc:1") rfl).2⟩

/-- Concrete instance of the amended claim C7, on a 404 delete. -/
theorem c7_amended_server_remove_witness :
    (delete_request wDelete404 ("ghost") (.ok exBody)).calls
      = [Call.kubeDelete ("ghost") ("default")] ∧
    (delete_request wDelete404 ("ghost") (.ok exBody)).outcome
      = .resp (.err ("Failed to deploy: " ++ "Not Found") 500) :=
  ⟨(c7_amended_server_remove_only_delete wDelete404 ("ghost") exBody 404 ("Not Found")).1,
   (c7_amended_server_remove_only_delete wDelete404 ("ghost") exBody 404 ("Not Found")).2 rfl⟩

end BuildService
